import Mathlib

/-!
Shallow embedding of `src/server.js`, a FieldRoutes → Missive relay server.

The server is an Express application.  Route handlers receive parsed path
parameters, query parameters, headers and JSON bodies; they either answer
immediately with an error response (validation failure) or issue exactly one
outbound call to the FieldRoutes provider and reshape the provider's answer.
We model each handler as a pure function from its inputs to either an
immediate response or a description of the single provider call it issues
(`RouteStep`), and model the post-call reshaping and the catch blocks as
separate pure functions on the provider outcome.

JavaScript values that can be `undefined` are modelled as `Option`;
JavaScript truthiness (`undefined`, `null`, `""`, `0`, `false` are falsy) is
modelled explicitly by the `jsTruthy` family of functions, since the source
uses `!x` and `x || y` pervasively.
-/

namespace FieldRoutes

/-- JSON values, as carried in request/response bodies.  `Option Json` is
used where a JavaScript expression may be `undefined`. -/
inductive Json where
  | null
  | bool (b : Bool)
  | num (n : Int)
  | str (s : String)
  | arr (elems : List Json)
  | obj (fields : List (String × Json))

/-- Field lookup in an object's field list: first binding wins, mirroring
JavaScript property access on object literals (which here never repeat keys). -/
def jgetList : List (String × Json) → String → Option Json
  | [], _ => none
  | (k', v) :: rest, k => if k' = k then some v else jgetList rest k

/-- `j.k` property access: `some` value on an object having the key, `none`
(i.e. `undefined`) otherwise — including access on non-objects, which the
source only ever performs through optional chaining. -/
def jget : Json → String → Option Json
  | .obj fields, k => jgetList fields k
  | _, _ => none

/-- JavaScript truthiness of a JSON value: `null`, `false`, `0` and `""` are
falsy; arrays and objects are always truthy. -/
def jsTruthy : Json → Bool
  | .null => false
  | .bool b => b
  | .num n => n != 0
  | .str s => s != ""
  | .arr _ => true
  | .obj _ => true

/-- JavaScript `a || b` on two defined values. -/
def jsOrJ (a b : Json) : Json := if jsTruthy a then a else b

/-- JavaScript `a || b` where `a` may be `undefined` and `b` is defined. -/
def jsOrU (a : Option Json) (b : Json) : Json :=
  match a with
  | some v => jsOrJ v b
  | none => b

/-- JavaScript `a || b` where both operands may be `undefined`. -/
def jsOrO (a b : Option Json) : Option Json :=
  match a with
  | some v => if jsTruthy v then some v else b
  | none => b

/-- Truthiness of a string value (only `""` is falsy among strings). -/
def jsTruthyStr (s : String) : Bool := s != ""

/-- Truthiness of a possibly-`undefined` string. -/
def jsTruthyOpt (o : Option String) : Bool :=
  match o with
  | some s => jsTruthyStr s
  | none => false

/-- The characters matched by JavaScript's `\s` class (ECMAScript
WhiteSpace and LineTerminator code points). -/
def isJsSpace (c : Char) : Bool :=
  c ∈ [' ', '\t', '\n', '\r', '\u000B', '\u000C', '\u00A0', '\u1680',
       '\u2000', '\u2001', '\u2002', '\u2003', '\u2004', '\u2005', '\u2006',
       '\u2007', '\u2008', '\u2009', '\u200A', '\u2028', '\u2029', '\u202F',
       '\u205F', '\u3000', '\uFEFF']

/-- JavaScript `String.prototype.trim`: strip leading and trailing
whitespace/line-terminator characters. -/
def jsTrim (s : String) : String :=
  ⟨((s.data.dropWhile isJsSpace).reverse.dropWhile isJsSpace).reverse⟩

/-- `FIELDROUTES_CONFIG` from the source: base URL taken from the
environment when set and non-empty (`process.env.FIELDROUTES_API_URL ||
default`), 10-second timeout (milliseconds). -/
structure FRConfig where
  baseURL : String
  timeout : Nat
deriving DecidableEq

/-- Build `FIELDROUTES_CONFIG` from the (possibly absent) environment
override. -/
def fieldRoutesConfig (envURL : Option String) : FRConfig :=
  { baseURL :=
      match envURL with
      | some u => if jsTruthyStr u then u else "https://api.fieldroutes.com/v1"
      | none => "https://api.fieldroutes.com/v1",
    timeout := 10000 }

/-- The axios instance produced by `createFieldRoutesClient`: base URL,
timeout and the three fixed headers. -/
structure FieldRoutesClient where
  baseURL : String
  timeout : Nat
  authorization : String
  xApiSecret : String
  contentType : String
deriving DecidableEq

/-- `createFieldRoutesClient(apiKey, apiSecret)` from the source. -/
def createFieldRoutesClient (cfg : FRConfig) (apiKey apiSecret : String) :
    FieldRoutesClient :=
  { baseURL := cfg.baseURL,
    timeout := cfg.timeout,
    authorization := "Bearer " ++ apiKey,
    xApiSecret := apiSecret,
    contentType := "application/json" }

/-- The credential headers read by the `validateCredentials` middleware.
`none` models an absent header. -/
structure Headers where
  apiKey : Option String
  apiSecret : Option String
deriving DecidableEq

/-- Body of the 401 answer produced by `validateCredentials`. -/
def missingApiCredentialsBody : Json :=
  .obj [("error", .str "Missing API credentials"),
        ("message", .str "API key and secret are required")]

/-- The `validateCredentials` middleware: on `!apiKey || !apiSecret` answer
401 immediately (no client is built); otherwise attach a fresh client bound
to the two header values and let the handler proceed. -/
def validateCredentials (cfg : FRConfig) (h : Headers) :
    Except (Nat × Json) FieldRoutesClient :=
  if !(jsTruthyOpt h.apiKey) || !(jsTruthyOpt h.apiSecret) then
    .error (401, missingApiCredentialsBody)
  else
    .ok (createFieldRoutesClient cfg (h.apiKey.getD "") (h.apiSecret.getD ""))

/-- Outcome of a handler's validation phase: either an immediate response,
or the single outbound provider call (with its route-specific parameters)
the handler issues. -/
inductive RouteStep (α : Type) where
  | respond (status : Nat) (body : Json)
  | call (c : α)

/-! ### The email regex `^[^\s@]+@[^\s@]+\.[^\s@]+$` (`isValidEmail`) -/

/-- The character class `[^\s@]`: any character that is neither whitespace
nor `@`. -/
def emailChar (c : Char) : Bool := !(isJsSpace c) && c != '@'

/-- Backtracking matcher for `p+` followed by a continuation `k` over the
rest of the input: at least one `p`-character is consumed, and every split
point is tried, as a regex engine does. -/
def plusThen (p : Char → Bool) (k : List Char → Bool) : List Char → Bool
  | [] => false
  | c :: rest => p c && (k rest || plusThen p k rest)

/-- Matcher for a literal character followed by a continuation. -/
def headIsThen (ch : Char) (k : List Char → Bool) : List Char → Bool
  | [] => false
  | x :: t => if x = ch then k t else false

/-- Tail of the email regex after the dot: `[^\s@]+$`. -/
def emailLast (l : List Char) : Bool := plusThen emailChar List.isEmpty l

/-- `\.[^\s@]+$`. -/
def emailAfterDotStep : List Char → Bool := headIsThen '.' emailLast

/-- `[^\s@]+\.[^\s@]+$` (the part after the `@`). -/
def emailDomainPart (l : List Char) : Bool := plusThen emailChar emailAfterDotStep l

/-- `@[^\s@]+\.[^\s@]+$`. -/
def emailAfterAtStep : List Char → Bool := headIsThen '@' emailDomainPart

/-- `isValidEmail` from the source: test of the whole string against
`^[^\s@]+@[^\s@]+\.[^\s@]+$`. -/
def isValidEmail (email : String) : Bool :=
  plusThen emailChar emailAfterAtStep email.data

/-! ### `isValidCustomerId` -/

/-- The character class `[a-zA-Z0-9-_]`. -/
def customerIdChar (c : Char) : Bool :=
  (decide ('a' ≤ c) && decide (c ≤ 'z')) ||
  (decide ('A' ≤ c) && decide (c ≤ 'Z')) ||
  (decide ('0' ≤ c) && decide (c ≤ '9')) ||
  c == '-' || c == '_'

/-- `isValidCustomerId` from the source:
`/^[a-zA-Z0-9-_]+$/.test(id) && id.length > 0 && id.length < 100`. -/
def isValidCustomerId (id : String) : Bool :=
  (!id.data.isEmpty && id.data.all customerIdChar) &&
  decide (id.length > 0) && decide (id.length < 100)

/-! ### Phone normalization -/

/-- The class `\d` = `[0-9]`. -/
def asciiDigit (c : Char) : Bool := decide ('0' ≤ c) && decide (c ≤ '9')

/-- `phone.replace(/\D/g, '')`: delete every non-digit character, keeping
the digits in order. -/
def cleanPhone (phone : String) : String :=
  ⟨phone.data.filter asciiDigit⟩

/-! ### Error normalization (`handleApiError`) and the catch blocks -/

/-- The part of an axios error the source inspects: `error.response` with
its HTTP `status` and (possibly absent) response body `data`. -/
structure ErrResponse where
  status : Nat
  data : Option Json

/-- A caught error: its own `message` (absent for non-Error throwables) and
the provider response, absent on network-level failures. -/
structure JsError where
  message : Option String
  response : Option ErrResponse

/-- `error.response?.data?.message`. -/
def providerMessage (e : JsError) : Option Json :=
  e.response.bind fun r => r.data.bind fun d => jget d "message"

/-- `error.response?.status === s`. -/
def responseStatusIs (e : JsError) (s : Nat) : Bool :=
  match e.response with
  | some r => r.status == s
  | none => false

/-- `error.response?.status || 500` (a zero status would be falsy). -/
def handleStatus (e : JsError) : Nat :=
  match e.response with
  | some r => if r.status != 0 then r.status else 500
  | none => 500

/-- `error.response?.data?.message || error.message || defaultMessage`. -/
def handleMessage (e : JsError) (defaultMessage : String) : Json :=
  jsOrU (jsOrO (providerMessage e) (e.message.map Json.str))
        (.str defaultMessage)

/-- `process.env.NODE_ENV === 'development' ? error.response?.data : undefined`. -/
def handleDetails (e : JsError) (nodeEnv : String) : Option Json :=
  if nodeEnv = "development" then e.response.bind (fun r => r.data) else none

/-- A `details` key is emitted only when its value is defined (`res.json`
omits keys whose value is `undefined`). -/
def detailsField : Option Json → List (String × Json)
  | some dd => [("details", dd)]
  | none => []

/-- `handleApiError(error, res, defaultMessage)` from the source:
status is `error.response?.status || 500`; message is
`error.response?.data?.message || error.message || defaultMessage`;
body is `error: 'API Error'`, the message, and — only when
`NODE_ENV === 'development'` — the raw provider body under `details`. -/
def handleApiError (e : JsError) (defaultMessage : String) (nodeEnv : String) :
    Nat × Json :=
  (handleStatus e,
    .obj ([("error", Json.str "API Error"),
           ("message", handleMessage e defaultMessage)] ++
      detailsField (handleDetails e nodeEnv)))

/-! ### Route handlers -/

/-- Body of the 400 answer of the email-search route. -/
def invalidEmailBody : Json :=
  .obj [("error", .str "Invalid email address"),
        ("message", .str "Please provide a valid email address")]

/-- Parameters of the outbound call of `GET /api/customers/search/email/:email`. -/
structure EmailSearchCall where
  email : String
  limit : Nat
deriving DecidableEq

/-- Validation phase of the email-search route:
`if (!email || !isValidEmail(email))` answer 400, else call the provider
with the email and a fixed `limit: 10`. -/
def emailSearchValidate (email : String) : RouteStep EmailSearchCall :=
  if !(jsTruthyStr email) || !(isValidEmail email) then
    .respond 400 invalidEmailBody
  else
    .call { email := email, limit := 10 }

/-- Response phase of the email-search route on provider body `d`:
`data: d.customers || []`, `total: d.total || 0`. -/
def emailSearchRespond (d : Json) : Nat × Json :=
  (200, .obj [("success", .bool true),
              ("data", jsOrU (jget d "customers") (.arr [])),
              ("total", jsOrU (jget d "total") (.num 0))])

/-- Body of the 400 answer of the phone-search route. -/
def phoneRequiredBody : Json :=
  .obj [("error", .str "Phone number required"),
        ("message", .str "Please provide a phone number")]

/-- Parameters of the outbound call of `GET /api/customers/search/phone/:phone`. -/
structure PhoneSearchCall where
  phone : String
  limit : Nat
deriving DecidableEq

/-- Validation phase of the phone-search route: `if (!phone)` answer 400,
else call with the digit-stripped phone and a fixed `limit: 10`. -/
def phoneSearchValidate (phone : String) : RouteStep PhoneSearchCall :=
  if !(jsTruthyStr phone) then
    .respond 400 phoneRequiredBody
  else
    .call { phone := cleanPhone phone, limit := 10 }

/-- Body of the 400 answer of the free-text search route. -/
def invalidQueryBody : Json :=
  .obj [("error", .str "Invalid search query"),
        ("message", .str "Search query must be at least 2 characters long")]

/-- Parameters of the outbound call of `GET /api/customers/search`. -/
structure TextSearchCall where
  q : String
  limit : Int
  offset : Int
deriving DecidableEq

/-- Validation phase of the free-text search route: defaults `limit = 10`,
`offset = 0`; `if (!q || q.trim().length < 2)` answer 400, else call with
`q.trim()`, `Math.min(limit, 50)` and `Math.max(offset, 0)`. -/
def textSearchValidate (q : Option String) (limit offset : Option Int) :
    RouteStep TextSearchCall :=
  let l := limit.getD 10
  let o := offset.getD 0
  if !(jsTruthyOpt q) || decide ((jsTrim (q.getD "")).length < 2) then
    .respond 400 invalidQueryBody
  else
    .call { q := jsTrim (q.getD ""), limit := min l 50, offset := max o 0 }

/-- Response phase of the free-text search route: like the email route's,
plus `query: q.trim()`. -/
def textSearchRespond (q : Option String) (d : Json) : Nat × Json :=
  (200, .obj [("success", .bool true),
              ("data", jsOrU (jget d "customers") (.arr [])),
              ("total", jsOrU (jget d "total") (.num 0)),
              ("query", .str (jsTrim (q.getD "")))])

/-- Body of the 400 answer of the three identifier-scoped routes. -/
def invalidCustomerIdBody : Json :=
  .obj [("error", .str "Invalid customer ID"),
        ("message", .str "Please provide a valid customer ID")]

/-- Parameters of the outbound call of `GET /api/customers/:id`. -/
structure CustomerFetchCall where
  id : String
deriving DecidableEq

/-- Validation phase of `GET /api/customers/:id`:
`if (!id || !isValidCustomerId(id))` answer 400, else fetch the customer. -/
def getCustomerValidate (id : String) : RouteStep CustomerFetchCall :=
  if !(jsTruthyStr id) || !(isValidCustomerId id) then
    .respond 400 invalidCustomerIdBody
  else
    .call { id := id }

/-- Body of the fixed 404 answer of the identifier-scoped routes. -/
def customerNotFoundBody : Json :=
  .obj [("error", .str "Customer not found"),
        ("message", .str "No customer found with the provided ID")]

/-- Catch block of `GET /api/customers/:id`: a provider 404 yields the
fixed customer-not-found answer, anything else goes to `handleApiError`
with this route's default message. -/
def getCustomerCatch (e : JsError) (nodeEnv : String) : Nat × Json :=
  if responseStatusIs e 404 then (404, customerNotFoundBody)
  else handleApiError e "Failed to fetch customer" nodeEnv

/-- Parameters of the outbound call of `GET /api/customers/:id/services`. -/
structure ServicesCall where
  id : String
  limit : Int
  offset : Int
  sort : String
deriving DecidableEq

/-- Validation phase of the services route: defaults `limit = 20`,
`offset = 0`; invalid id answers 400, else call with `Math.min(limit, 100)`,
`Math.max(offset, 0)` and `sort: 'date_desc'`. -/
def servicesValidate (id : String) (limit offset : Option Int) :
    RouteStep ServicesCall :=
  let l := limit.getD 20
  let o := offset.getD 0
  if !(jsTruthyStr id) || !(isValidCustomerId id) then
    .respond 400 invalidCustomerIdBody
  else
    .call { id := id, limit := min l 100, offset := max o 0, sort := "date_desc" }

/-- Catch block of the services route: same provider-404 mapping as the
fetch-by-id route, different default message. -/
def getServicesCatch (e : JsError) (nodeEnv : String) : Nat × Json :=
  if responseStatusIs e 404 then (404, customerNotFoundBody)
  else handleApiError e "Failed to fetch service history" nodeEnv

/-- Parameters of the outbound call of `GET /api/customers/:id/appointments`. -/
structure AppointmentsCall where
  customer_id : String
  limit : Int
  status : Option String
deriving DecidableEq

/-- Validation phase of the appointments route: defaults `status = 'all'`,
`limit = 10`; invalid id answers 400, else call with `Math.min(limit, 50)`
and the status filter only when it is not `'all'`. -/
def appointmentsValidate (id : String) (status : Option String)
    (limit : Option Int) : RouteStep AppointmentsCall :=
  let st := status.getD "all"
  let l := limit.getD 10
  if !(jsTruthyStr id) || !(isValidCustomerId id) then
    .respond 400 invalidCustomerIdBody
  else
    .call { customer_id := id, limit := min l 50,
            status := if st != "all" then some st else none }

/-- JSON body of `POST /api/test-credentials` as the handler reads it. -/
structure CredBody where
  apiKey : Option String
  apiSecret : Option String
  baseUrl : Option String
deriving DecidableEq

/-- Body of the 400 answer of the credential-test route. -/
def missingCredentialsBody : Json :=
  .obj [("error", .str "Missing credentials"),
        ("message", .str "API key and secret are required")]

/-- The single probe call of the credential-test route. -/
structure TestCredCall where
  client : FieldRoutesClient
  limit : Nat
deriving DecidableEq

/-- Validation phase of `POST /api/test-credentials`:
`if (!apiKey || !apiSecret)` answer 400 — no client is built; otherwise
build a fresh client, override its base URL when a truthy `baseUrl` is
given, and probe `GET /customers` with `limit: 1`. -/
def testCredentialsValidate (cfg : FRConfig) (b : CredBody) :
    RouteStep TestCredCall :=
  if !(jsTruthyOpt b.apiKey) || !(jsTruthyOpt b.apiSecret) then
    .respond 400 missingCredentialsBody
  else
    let client := createFieldRoutesClient cfg (b.apiKey.getD "") (b.apiSecret.getD "")
    let client :=
      match b.baseUrl with
      | some u => if jsTruthyStr u then { client with baseURL := u } else client
      | none => client
    .call { client := client, limit := 1 }

/-- Body of the 401 answer of the credential-test route. -/
def invalidCredentialsBody : Json :=
  .obj [("error", .str "Invalid credentials"),
        ("message", .str "The provided API credentials are invalid")]

/-- Catch block of the credential-test route: provider 401 or 403 yields
the fixed invalid-credentials answer, anything else goes to
`handleApiError` with this route's default message. -/
def testCredentialsCatch (e : JsError) (nodeEnv : String) : Nat × Json :=
  if responseStatusIs e 401 || responseStatusIs e 403 then
    (401, invalidCredentialsBody)
  else handleApiError e "Failed to test credentials" nodeEnv

/-! ## Helper lemmas -/

/-- `String.length` is the length of the character list. -/
theorem string_length_eq_data (s : String) : s.length = s.data.length := rfl

/-- Characterization of the backtracking `p+ k` matcher: it succeeds exactly
when the input splits into a non-empty block of `p`-characters followed by a
rest accepted by the continuation. -/
theorem plusThen_iff (p : Char → Bool) (k : List Char → Bool) (l : List Char) :
    plusThen p k l = true ↔
      ∃ a r, l = a ++ r ∧ a ≠ [] ∧ (∀ c ∈ a, p c = true) ∧ k r = true := by
  induction l with
  | nil =>
    constructor
    · intro h; simp [plusThen] at h
    · rintro ⟨a, r, hl, ha, -, -⟩
      cases a with
      | nil => exact absurd rfl ha
      | cons x xs => simp at hl
  | cons c t ih =>
    constructor
    · intro h
      simp only [plusThen, Bool.and_eq_true, Bool.or_eq_true] at h
      obtain ⟨hp, h2⟩ := h
      rcases h2 with hk | hrec
      · exact ⟨[c], t, rfl, by simp, by simpa using hp, hk⟩
      · obtain ⟨a, r, hl, ha, hall, hk⟩ := ih.mp hrec
        refine ⟨c :: a, r, by simp [hl], by simp, ?_, hk⟩
        intro x hx
        rcases List.mem_cons.mp hx with rfl | hx'
        · exact hp
        · exact hall x hx'
    · rintro ⟨a, r, hl, ha, hall, hk⟩
      cases a with
      | nil => exact absurd rfl ha
      | cons x xs =>
        rw [List.cons_append] at hl
        injection hl with h1 h2
        subst h1
        simp only [plusThen, Bool.and_eq_true, Bool.or_eq_true]
        refine ⟨hall _ (List.mem_cons_self _ _), ?_⟩
        cases xs with
        | nil =>
          left
          simp only [List.nil_append] at h2
          exact h2 ▸ hk
        | cons y ys =>
          right
          refine ih.mpr ⟨y :: ys, r, by simpa using h2, by simp, ?_, hk⟩
          intro z hz
          exact hall z (List.mem_cons_of_mem _ hz)

/-- Characterization of the literal-character matcher. -/
theorem headIsThen_iff (ch : Char) (k : List Char → Bool) (l : List Char) :
    headIsThen ch k l = true ↔ ∃ t, l = ch :: t ∧ k t = true := by
  cases l with
  | nil => simp [headIsThen]
  | cons x t =>
    by_cases hx : x = ch
    · subst hx; simp [headIsThen]
    · simp [headIsThen, hx, List.cons.injEq]

/-- Characterization of the final `[^\s@]+$` block. -/
theorem emailLast_iff (l : List Char) :
    emailLast l = true ↔ l ≠ [] ∧ ∀ x ∈ l, emailChar x = true := by
  rw [emailLast, plusThen_iff]
  constructor
  · rintro ⟨a, r, rfl, ha, hall, hk⟩
    have hr : r = [] := by
      cases r with
      | nil => rfl
      | cons y ys => simp [List.isEmpty] at hk
    subst hr
    simpa using ⟨ha, hall⟩
  · rintro ⟨hl, hall⟩
    exact ⟨l, [], by simp, hl, hall, rfl⟩

/-- Characterization of the whole email regex: the string splits as
`A ++ '@' ++ B ++ '.' ++ C` with `A`, `B`, `C` non-empty blocks of
non-whitespace non-`@` characters (`B` and `C` may contain further dots). -/
theorem isValidEmail_iff (s : String) :
    isValidEmail s = true ↔
      ∃ a b c : List Char,
        s.data = a ++ '@' :: (b ++ '.' :: c) ∧
        a ≠ [] ∧ b ≠ [] ∧ c ≠ [] ∧
        (∀ x ∈ a, emailChar x = true) ∧ (∀ x ∈ b, emailChar x = true) ∧
        (∀ x ∈ c, emailChar x = true) := by
  rw [isValidEmail, plusThen_iff]
  constructor
  · rintro ⟨a, r, hs, ha, halla, hstep⟩
    rw [emailAfterAtStep, headIsThen_iff] at hstep
    obtain ⟨t, rfl, hdom⟩ := hstep
    rw [emailDomainPart, plusThen_iff] at hdom
    obtain ⟨b, r2, rfl, hb, hallb, hstep2⟩ := hdom
    rw [emailAfterDotStep, headIsThen_iff] at hstep2
    obtain ⟨u, rfl, hlast⟩ := hstep2
    rw [emailLast_iff] at hlast
    exact ⟨a, b, u, hs, ha, hb, hlast.1, halla, hallb, hlast.2⟩
  · rintro ⟨a, b, c, hs, ha, hb, hc, halla, hallb, hallc⟩
    refine ⟨a, '@' :: (b ++ '.' :: c), hs, ha, halla, ?_⟩
    rw [emailAfterAtStep, headIsThen_iff]
    refine ⟨b ++ '.' :: c, rfl, ?_⟩
    rw [emailDomainPart, plusThen_iff]
    refine ⟨b, '.' :: c, rfl, hb, hallb, ?_⟩
    rw [emailAfterDotStep, headIsThen_iff]
    exact ⟨c, rfl, (emailLast_iff c).mpr ⟨hc, hallc⟩⟩

/-- Filtering a list is idempotent. -/
theorem filter_self_idem (p : Char → Bool) (l : List Char) :
    (l.filter p).filter p = l.filter p := by
  induction l with
  | nil => rfl
  | cons c t ih =>
    cases hp : p c with
    | true => simp [List.filter_cons, hp, ih]
    | false => simp [List.filter_cons, hp, ih]

/-- A list all of whose elements satisfy the filter is unchanged by it. -/
theorem filter_of_all (p : Char → Bool) (l : List Char)
    (h : ∀ c ∈ l, p c = true) : l.filter p = l := by
  induction l with
  | nil => rfl
  | cons c t ih =>
    rw [List.filter_cons, if_pos (h c (List.mem_cons_self _ _))]
    rw [ih fun x hx => h x (List.mem_cons_of_mem _ hx)]

/-! ## Claims -/

/-- Claim C9: phone normalization removes exactly the non-digit characters
from its input, is idempotent, leaves already-digit-only strings unchanged,
and maps "(555) 123-4567" to "5551234567". -/
theorem cleanPhone_spec :
    (∀ s : String, (cleanPhone s).data = s.data.filter asciiDigit) ∧
    (∀ s : String, cleanPhone (cleanPhone s) = cleanPhone s) ∧
    (∀ s : String, (∀ c ∈ s.data, asciiDigit c = true) → cleanPhone s = s) ∧
    cleanPhone "(555) 123-4567" = "5551234567" := by
  refine ⟨fun s => rfl, fun s => ?_, fun s h => ?_, by decide⟩
  · exact congrArg String.mk (filter_self_idem asciiDigit s.data)
  · cases s with
    | mk l => exact congrArg String.mk (filter_of_all asciiDigit l h)

/-- Claim C9 witness: the digit-only-unchanged clause at a concrete input,
together with idempotence at a concrete input. -/
theorem cleanPhone_spec_witness :
    cleanPhone "5551234567" = "5551234567" ∧
    cleanPhone (cleanPhone "(555) 123-4567") = cleanPhone "(555) 123-4567" :=
  ⟨cleanPhone_spec.2.2.1 "5551234567" (by decide),
   cleanPhone_spec.2.1 "(555) 123-4567"⟩

/-- Claim C6: the customer-id validator accepts a string exactly when every
character is an ASCII letter, digit, hyphen or underscore and the length is
between 1 and 99; any id violating this makes all three identifier-scoped
routes answer 400 with the invalid-customer-id body instead of calling the
provider. -/
theorem isValidCustomerId_spec :
    (∀ id : String, isValidCustomerId id = true ↔
        ((∀ c ∈ id.data, customerIdChar c = true) ∧
          1 ≤ id.length ∧ id.length ≤ 99)) ∧
    (∀ id : String,
        ((∃ c ∈ id.data, customerIdChar c = false) ∨ id.length = 0 ∨
            100 ≤ id.length) →
        getCustomerValidate id = .respond 400 invalidCustomerIdBody ∧
        (∀ l o, servicesValidate id l o = .respond 400 invalidCustomerIdBody) ∧
        (∀ st l, appointmentsValidate id st l =
            .respond 400 invalidCustomerIdBody)) := by
  have hiff : ∀ id : String, isValidCustomerId id = true ↔
      ((∀ c ∈ id.data, customerIdChar c = true) ∧
        1 ≤ id.length ∧ id.length ≤ 99) := by
    intro id
    simp only [isValidCustomerId, Bool.and_eq_true, decide_eq_true_eq,
      List.all_eq_true, Bool.not_eq_true']
    constructor
    · rintro ⟨⟨⟨-, hall⟩, h1⟩, h99⟩
      exact ⟨hall, h1, by omega⟩
    · rintro ⟨hall, h1, h99⟩
      have hne : id.data ≠ [] := by
        intro hnil
        rw [string_length_eq_data, hnil] at h1
        simp at h1
      refine ⟨⟨⟨?_, hall⟩, h1⟩, by omega⟩
      simpa using hne
  refine ⟨hiff, fun id h => ?_⟩
  have hv : isValidCustomerId id = false := by
    cases hb : isValidCustomerId id with
    | false => rfl
    | true =>
      obtain ⟨hall, h1, h99⟩ := (hiff id).mp hb
      rcases h with ⟨c, hc, hcf⟩ | h0 | h100
      · rw [hall c hc] at hcf
        exact absurd hcf (by simp)
      · omega
      · omega
  refine ⟨?_, fun l o => ?_, fun st l => ?_⟩
  · simp [getCustomerValidate, hv]
  · simp [servicesValidate, hv]
  · simp [appointmentsValidate, hv]

/-- Claim C6 witness: the characterization and the 400 answer at concrete
inputs. -/
theorem isValidCustomerId_spec_witness :
    isValidCustomerId "cust-42_X" = true ∧
    getCustomerValidate "bad id!" = .respond 400 invalidCustomerIdBody :=
  ⟨(isValidCustomerId_spec.1 "cust-42_X").mpr (by decide),
   (isValidCustomerId_spec.2 "bad id!" (Or.inl ⟨' ', by decide, by decide⟩)).1⟩

/-- Claim C3: when the provider call of the fetch-by-id or fetch-services
route fails with HTTP 404, the catch block answers 404 with exactly the
fixed customer-not-found body, whose error label differs from the
`API Error` label the generic normalizer always emits. -/
theorem provider404_maps_to_customerNotFound (e : JsError) (r : ErrResponse)
    (nodeEnv : String) (hr : e.response = some r) (h404 : r.status = 404) :
    getCustomerCatch e nodeEnv = (404, customerNotFoundBody) ∧
    getServicesCatch e nodeEnv = (404, customerNotFoundBody) ∧
    jget customerNotFoundBody "error" = some (.str "Customer not found") ∧
    jget customerNotFoundBody "message" =
      some (.str "No customer found with the provided ID") ∧
    (∀ e' d env, jget (handleApiError e' d env).2 "error" =
        some (.str "API Error")) ∧
    "Customer not found" ≠ "API Error" := by
  have h : responseStatusIs e 404 = true := by
    simp [responseStatusIs, hr, h404]
  exact ⟨by simp [getCustomerCatch, h], by simp [getServicesCatch, h],
    rfl, rfl, fun e' d env => rfl, by decide⟩

/-- Claim C3 witness: a provider 404 at a concrete error value. -/
theorem provider404_maps_to_customerNotFound_witness :
    getCustomerCatch
      { message := some "Request failed with status code 404",
        response := some { status := 404, data := none } } "production" =
      (404, customerNotFoundBody) :=
  (provider404_maps_to_customerNotFound _
    { status := 404, data := none } "production" rfl rfl).1

/-- Claim C8: when the provider call of the credential-test route fails with
HTTP 401 or 403, the catch block answers 401 with exactly the fixed
invalid-credentials body, bypassing the generic normalizer. -/
theorem testCredentials_401_403_mapping (e : JsError) (r : ErrResponse)
    (nodeEnv : String) (hr : e.response = some r)
    (hst : r.status = 401 ∨ r.status = 403) :
    testCredentialsCatch e nodeEnv = (401, invalidCredentialsBody) ∧
    jget invalidCredentialsBody "error" = some (.str "Invalid credentials") ∧
    jget invalidCredentialsBody "message" =
      some (.str "The provided API credentials are invalid") ∧
    (∀ e' d env, jget (handleApiError e' d env).2 "error" =
        some (.str "API Error")) ∧
    "Invalid credentials" ≠ "API Error" := by
  have h : (responseStatusIs e 401 || responseStatusIs e 403) = true := by
    rcases hst with h' | h' <;> simp [responseStatusIs, hr, h']
  exact ⟨by simp [testCredentialsCatch, h], rfl, rfl, fun e' d env => rfl,
    by decide⟩

/-- Claim C8 witness: a provider 401 at a concrete error value. -/
theorem testCredentials_401_403_mapping_witness :
    testCredentialsCatch
      { message := some "Request failed with status code 401",
        response := some { status := 401, data := none } } "production" =
      (401, invalidCredentialsBody) :=
  (testCredentials_401_403_mapping _
    { status := 401, data := none } "production" rfl (Or.inl rfl)).1

/-- Claim C10: a credential-test request whose body lacks `apiKey` or lacks
`apiSecret` is answered 400 with the missing-credentials body; no client is
built and no outbound call is made. -/
theorem testCredentials_missing_body_400 (cfg : FRConfig) (b : CredBody)
    (h : b.apiKey = none ∨ b.apiSecret = none) :
    testCredentialsValidate cfg b = .respond 400 missingCredentialsBody ∧
    (∀ c, testCredentialsValidate cfg b ≠ .call c) := by
  have hcond : (!(jsTruthyOpt b.apiKey) || !(jsTruthyOpt b.apiSecret)) = true := by
    rcases h with h' | h' <;> simp [jsTruthyOpt, h']
  have h1 : testCredentialsValidate cfg b = .respond 400 missingCredentialsBody := by
    simp only [testCredentialsValidate, hcond, if_true]
  refine ⟨h1, fun c hc => ?_⟩
  rw [h1] at hc
  exact RouteStep.noConfusion hc

/-- Claim C10 witness: a concrete body missing the key. -/
theorem testCredentials_missing_body_400_witness :
    testCredentialsValidate (fieldRoutesConfig none)
      { apiKey := none, apiSecret := some "secret", baseUrl := none } =
      .respond 400 missingCredentialsBody :=
  (testCredentials_missing_body_400 (fieldRoutesConfig none)
    { apiKey := none, apiSecret := some "secret", baseUrl := none }
    (Or.inl rfl)).1

/-- Claim C4: whenever a request reaches the provider call, the outbound
limit is `min(requested, cap)` with cap 50 for free-text search and
appointments and 100 for services — hence never above the cap — the
outbound offset is `max(requested, 0)` — hence never negative — and the
email and phone searches always send the fixed limit 10. -/
theorem paging_clamp_spec :
    (∀ (q : String) (l o : Int) (c : TextSearchCall),
        textSearchValidate (some q) (some l) (some o) = .call c →
        c.limit = min l 50 ∧ c.limit ≤ 50 ∧
        c.offset = max o 0 ∧ 0 ≤ c.offset) ∧
    (∀ (id : String) (l o : Int) (c : ServicesCall),
        servicesValidate id (some l) (some o) = .call c →
        c.limit = min l 100 ∧ c.limit ≤ 100 ∧
        c.offset = max o 0 ∧ 0 ≤ c.offset) ∧
    (∀ (id : String) (st : Option String) (l : Int) (c : AppointmentsCall),
        appointmentsValidate id st (some l) = .call c →
        c.limit = min l 50 ∧ c.limit ≤ 50) ∧
    (∀ (e : String) (c : EmailSearchCall),
        emailSearchValidate e = .call c → c.limit = 10) ∧
    (∀ (p : String) (c : PhoneSearchCall),
        phoneSearchValidate p = .call c → c.limit = 10) := by
  refine ⟨?_, ?_, ?_, ?_, ?_⟩
  · intro q l o c h
    simp only [textSearchValidate, Option.getD_some] at h
    split at h
    · exact RouteStep.noConfusion h
    · cases h
      exact ⟨rfl, min_le_right _ _, rfl, le_max_right _ _⟩
  · intro id l o c h
    simp only [servicesValidate, Option.getD_some] at h
    split at h
    · exact RouteStep.noConfusion h
    · cases h
      exact ⟨rfl, min_le_right _ _, rfl, le_max_right _ _⟩
  · intro id st l c h
    simp only [appointmentsValidate, Option.getD_some] at h
    split at h
    · exact RouteStep.noConfusion h
    · cases h
      exact ⟨rfl, min_le_right _ _⟩
  · intro e c h
    simp only [emailSearchValidate] at h
    split at h
    · exact RouteStep.noConfusion h
    · cases h
      rfl
  · intro p c h
    simp only [phoneSearchValidate] at h
    split at h
    · exact RouteStep.noConfusion h
    · cases h
      rfl

/-- Claim C4 witness: requesting limit 500 and offset -5 on free-text
search yields outbound limit 50 and offset 0; a valid email search carries
limit 10. -/
theorem paging_clamp_spec_witness :
    (({ q := "ab", limit := 50, offset := 0 } : TextSearchCall).limit =
        min 500 50 ∧
      ({ q := "ab", limit := 50, offset := 0 } : TextSearchCall).limit ≤ 50 ∧
      ({ q := "ab", limit := 50, offset := 0 } : TextSearchCall).offset =
        max (-5) 0 ∧
      (0 : Int) ≤ ({ q := "ab", limit := 50, offset := 0 } : TextSearchCall).offset) ∧
    ({ email := "x@y.zz", limit := 10 } : EmailSearchCall).limit = 10 :=
  ⟨paging_clamp_spec.1 "ab" 500 (-5) { q := "ab", limit := 50, offset := 0 } rfl,
   paging_clamp_spec.2.2.2.1 "x@y.zz" { email := "x@y.zz", limit := 10 } rfl⟩

/-- Claim C1 counterexample: with both credential headers present but the
key header carrying the empty string, the middleware still answers 401 and
builds no client — the claim's "when both headers are present, a provider
client is attached and the handler proceeds" direction is false. -/
theorem validateCredentials_present_but_empty_is_rejected :
    (Headers.mk (some "") (some "secret")).apiKey.isSome = true ∧
    (Headers.mk (some "") (some "secret")).apiSecret.isSome = true ∧
    validateCredentials (fieldRoutesConfig none)
        (Headers.mk (some "") (some "secret")) =
      .error (401, missingApiCredentialsBody) :=
  ⟨rfl, rfl, rfl⟩

/-- Claim C1 (amended): if either credential header is absent or empty
(falsy), the middleware answers 401 with the missing-credentials body and
no provider client is built; if both are present and non-empty, a client
bound to exactly those credentials is attached and the handler proceeds. -/
theorem validateCredentials_truthy_spec (cfg : FRConfig) (h : Headers) :
    ((jsTruthyOpt h.apiKey = false ∨ jsTruthyOpt h.apiSecret = false) →
      validateCredentials cfg h = .error (401, missingApiCredentialsBody)) ∧
    (∀ k s, h.apiKey = some k → h.apiSecret = some s → k ≠ "" → s ≠ "" →
      validateCredentials cfg h = .ok (createFieldRoutesClient cfg k s) ∧
      (createFieldRoutesClient cfg k s).authorization = "Bearer " ++ k ∧
      (createFieldRoutesClient cfg k s).xApiSecret = s) := by
  constructor
  · intro hf
    have hcond : (!(jsTruthyOpt h.apiKey) || !(jsTruthyOpt h.apiSecret)) = true := by
      rcases hf with h' | h' <;> simp [h']
    simp only [validateCredentials, hcond, if_true]
  · intro k s hk hs hk0 hs0
    have h1 : jsTruthyOpt (some k) = true := by
      simp [jsTruthyOpt, jsTruthyStr, hk0]
    have h2 : jsTruthyOpt (some s) = true := by
      simp [jsTruthyOpt, jsTruthyStr, hs0]
    refine ⟨?_, rfl, rfl⟩
    simp [validateCredentials, hk, hs, h1, h2]

/-- Claim C1 witness: a missing key header is rejected, and concrete
non-empty credentials are attached. -/
theorem validateCredentials_truthy_spec_witness :
    validateCredentials (fieldRoutesConfig none) (Headers.mk none (some "s")) =
      .error (401, missingApiCredentialsBody) ∧
    validateCredentials (fieldRoutesConfig none)
        (Headers.mk (some "k") (some "s")) =
      .ok (createFieldRoutesClient (fieldRoutesConfig none) "k" "s") :=
  ⟨(validateCredentials_truthy_spec (fieldRoutesConfig none)
      (Headers.mk none (some "s"))).1 (Or.inl rfl),
   ((validateCredentials_truthy_spec (fieldRoutesConfig none)
      (Headers.mk (some "k") (some "s"))).2 "k" "s" rfl rfl
      (by decide) (by decide)).1⟩

/-- Claim C5 counterexample: the string "a@b.c@d" matches the claim's
pattern — non-whitespace non-`@` block, `@`, non-whitespace non-`@` block,
`.`, then a non-empty block that is merely non-whitespace — yet the code's
validator rejects it, because the code's final character class also
excludes `@`. -/
theorem isValidEmail_claim_counterexample :
    "a@b.c@d".data = ['a'] ++ '@' :: (['b'] ++ '.' :: ['c', '@', 'd']) ∧
    (∀ x ∈ (['a'] : List Char), emailChar x = true) ∧
    (∀ x ∈ (['b'] : List Char), emailChar x = true) ∧
    (∀ x ∈ (['c', '@', 'd'] : List Char), isJsSpace x = false) ∧
    isValidEmail "a@b.c@d" = false :=
  ⟨by decide, by decide, by decide, by decide, by decide⟩

/-- Claim C5 (amended): the email validator accepts a string exactly when
it splits as one or more non-whitespace non-`@` characters, then `@`, then
one or more non-whitespace non-`@` characters, then `.`, then one or more
non-whitespace NON-`@` characters; every string failing this pattern makes
the email-search route answer 400 without calling the provider. -/
theorem isValidEmail_pattern_spec (s : String) :
    (isValidEmail s = true ↔
      ∃ a b c : List Char,
        s.data = a ++ '@' :: (b ++ '.' :: c) ∧
        a ≠ [] ∧ b ≠ [] ∧ c ≠ [] ∧
        (∀ x ∈ a, emailChar x = true) ∧ (∀ x ∈ b, emailChar x = true) ∧
        (∀ x ∈ c, emailChar x = true)) ∧
    (isValidEmail s = false →
      emailSearchValidate s = .respond 400 invalidEmailBody) := by
  refine ⟨isValidEmail_iff s, fun hf => ?_⟩
  simp [emailSearchValidate, hf]

/-- Claim C5 witness: a matching concrete email is accepted, a
non-matching concrete input is answered 400. -/
theorem isValidEmail_pattern_spec_witness :
    isValidEmail "a@b.co" = true ∧
    emailSearchValidate "invalid" = .respond 400 invalidEmailBody :=
  ⟨(isValidEmail_pattern_spec "a@b.co").1.mpr
      ⟨['a'], ['b'], ['c', 'o'], by decide, by decide, by decide, by decide,
       by decide, by decide, by decide⟩,
   (isValidEmail_pattern_spec "invalid").2 (by decide)⟩

/-- Claim C7 counterexample: a provider response omitting `customers` but
carrying `total: 3` is answered with `total: 3`, not the `total: 0` the
claim demands for every customers-absent response. -/
theorem searchRespond_total_counterexample :
    jget (Json.obj [("total", .num 3)]) "customers" = none ∧
    (emailSearchRespond (.obj [("total", .num 3)])).2 =
      .obj [("success", .bool true), ("data", .arr []), ("total", .num 3)] ∧
    (3 : Int) ≠ 0 :=
  ⟨rfl, rfl, by decide⟩

/-- Claim C7 (amended): the search envelope is `success: true` with status
200; `data` echoes the provider's customers list (unchanged, even when
empty) and defaults to `[]` when the field is absent; `total` echoes the
provider's numeric total and defaults to 0 when that field is absent — the
two defaults are independent.  The free-text search route builds the same
`data` and `total` fields. -/
theorem searchRespond_envelope_spec (d : Json) :
    (∀ l : List Json, jget d "customers" = some (.arr l) →
        jget (emailSearchRespond d).2 "data" = some (.arr l)) ∧
    (jget d "customers" = none →
        jget (emailSearchRespond d).2 "data" = some (.arr [])) ∧
    (∀ t : Int, jget d "total" = some (.num t) →
        jget (emailSearchRespond d).2 "total" = some (.num t)) ∧
    (jget d "total" = none →
        jget (emailSearchRespond d).2 "total" = some (.num 0)) ∧
    jget (emailSearchRespond d).2 "success" = some (.bool true) ∧
    (emailSearchRespond d).1 = 200 ∧
    (∀ q, jget (textSearchRespond q d).2 "data" =
            jget (emailSearchRespond d).2 "data" ∧
          jget (textSearchRespond q d).2 "total" =
            jget (emailSearchRespond d).2 "total") := by
  have hdata : jget (emailSearchRespond d).2 "data" =
      some (jsOrU (jget d "customers") (.arr [])) := rfl
  have htotal : jget (emailSearchRespond d).2 "total" =
      some (jsOrU (jget d "total") (.num 0)) := rfl
  refine ⟨?_, ?_, ?_, ?_, rfl, rfl, ?_⟩
  · intro l hl
    rw [hdata, hl]
    simp [jsOrU, jsOrJ, jsTruthy]
  · intro hl
    rw [hdata, hl]
    rfl
  · intro t ht
    rw [htotal, ht]
    by_cases h0 : t = 0
    · subst h0; simp [jsOrU, jsOrJ, jsTruthy]
    · simp [jsOrU, jsOrJ, jsTruthy, h0]
  · intro ht
    rw [htotal, ht]
    rfl
  · intro q
    exact ⟨by rw [hdata]; rfl, by rw [htotal]; rfl⟩

/-- Claim C7 witness: a concrete provider response with a customers list
and total is echoed unchanged. -/
theorem searchRespond_envelope_spec_witness :
    jget (emailSearchRespond
        (.obj [("customers", .arr [.str "c1"]), ("total", .num 1)])).2 "data" =
      some (.arr [.str "c1"]) ∧
    jget (emailSearchRespond
        (.obj [("customers", .arr [.str "c1"]), ("total", .num 1)])).2 "total" =
      some (.num 1) :=
  ⟨(searchRespond_envelope_spec
      (.obj [("customers", .arr [.str "c1"]), ("total", .num 1)])).1
      [.str "c1"] rfl,
   (searchRespond_envelope_spec
      (.obj [("customers", .arr [.str "c1"]), ("total", .num 1)])).2.2.1
      1 rfl⟩

/-- Claim C2 counterexample: a provider response whose body carries the
message field with the empty string — present, but falsy — makes the
normalizer fall through to the error's own message, contradicting the
claim's "message equals the provider-reported message field when present". -/
theorem handleApiError_empty_message_counterexample :
    providerMessage
      { message := some "boom",
        response := some { status := 502,
                           data := some (.obj [("message", .str "")]) } } =
      some (.str "") ∧
    handleApiError
      { message := some "boom",
        response := some { status := 502,
                           data := some (.obj [("message", .str "")]) } }
      "Failed to search customers by email" "production" =
      (502, .obj [("error", .str "API Error"), ("message", .str "boom")]) ∧
    "boom" ≠ "" :=
  ⟨rfl, rfl, by decide⟩

/-- Claim C2 (amended): the normalized status is the provider status when a
provider response is present (HTTP statuses being non-zero), else 500; the
message is the provider-reported message field when present and truthy,
else the error's own message when present and non-empty, else the
route-supplied default; the body always carries the `API Error` label and
the message; the raw provider body appears under `details` only in
development mode (hence only in a non-production mode). -/
theorem handleApiError_spec (e : JsError) (d : String) (nodeEnv : String) :
    (∀ r, e.response = some r → r.status ≠ 0 →
        (handleApiError e d nodeEnv).1 = r.status) ∧
    (e.response = none → (handleApiError e d nodeEnv).1 = 500) ∧
    jget (handleApiError e d nodeEnv).2 "error" = some (.str "API Error") ∧
    (∀ v, providerMessage e = some v → jsTruthy v = true →
        jget (handleApiError e d nodeEnv).2 "message" = some v) ∧
    ((providerMessage e = none ∨
        ∃ v, providerMessage e = some v ∧ jsTruthy v = false) →
      (∀ s, e.message = some s → s ≠ "" →
          jget (handleApiError e d nodeEnv).2 "message" = some (.str s)) ∧
      ((e.message = none ∨ e.message = some "") →
          jget (handleApiError e d nodeEnv).2 "message" = some (.str d))) ∧
    (∀ dd, jget (handleApiError e d nodeEnv).2 "details" = some dd →
        nodeEnv = "development" ∧ nodeEnv ≠ "production") := by
  have hmsg : jget (handleApiError e d nodeEnv).2 "message" =
      some (handleMessage e d) := rfl
  refine ⟨?_, ?_, rfl, ?_, ?_, ?_⟩
  · intro r hr h0
    show handleStatus e = r.status
    simp [handleStatus, hr, h0]
  · intro hr
    show handleStatus e = 500
    simp [handleStatus, hr]
  · intro v hv ht
    rw [hmsg]
    simp [handleMessage, jsOrO, jsOrU, jsOrJ, hv, ht]
  · intro hpm
    have hpm' : jsOrO (providerMessage e) (e.message.map Json.str) =
        e.message.map Json.str := by
      rcases hpm with h' | ⟨v, hv, hvf⟩
      · simp [jsOrO, h']
      · simp [jsOrO, hv, hvf]
    have hred : handleMessage e d =
        jsOrU (Option.map Json.str e.message) (.str d) := by
      rw [handleMessage, hpm']
    constructor
    · intro s hs hs0
      rw [hmsg, hred, hs]
      simp [jsOrU, jsOrJ, jsTruthy, hs0]
    · intro hm
      rw [hmsg, hred]
      rcases hm with h' | h' <;> rw [h'] <;> simp [jsOrU, jsOrJ, jsTruthy]
  · intro dd hd
    by_cases hdev : nodeEnv = "development"
    · exact ⟨hdev, by rw [hdev]; decide⟩
    · exfalso
      have hdet : handleDetails e nodeEnv = none := by
        simp [handleDetails, hdev]
      have hnone : jget (handleApiError e d nodeEnv).2 "details" = none := by
        simp [handleApiError, hdet, detailsField, jget, jgetList]
      rw [hnone] at hd
      exact Option.noConfusion hd

/-- Claim C2 witness: a concrete provider failure with status 502 and a
truthy provider message is normalized to that status and message. -/
theorem handleApiError_spec_witness :
    (handleApiError
      { message := some "boom",
        response := some { status := 502,
                           data := some (.obj [("message", .str "m")]) } }
      "dflt" "production").1 = 502 ∧
    jget (handleApiError
      { message := some "boom",
        response := some { status := 502,
                           data := some (.obj [("message", .str "m")]) } }
      "dflt" "production").2 "message" = some (.str "m") :=
  ⟨(handleApiError_spec
      { message := some "boom",
        response := some { status := 502,
                           data := some (.obj [("message", .str "m")]) } }
      "dflt" "production").1
      { status := 502, data := some (.obj [("message", .str "m")]) }
      rfl (by decide),
   (handleApiError_spec
      { message := some "boom",
        response := some { status := 502,
                           data := some (.obj [("message", .str "m")]) } }
      "dflt" "production").2.2.2.1 (.str "m") rfl rfl⟩

end FieldRoutes
